import Mathlib

/-!
Verification of the gollm_cn prompt-optimizer core against its specification.

The Go sources are shallowly embedded:
* `float64` values are modelled as rationals (`ℚ`); all comparisons in the
  embedded code are exact comparisons of decimal literals, which the rational
  model reproduces faithfully.
* Go's `(value, error)` return pairs are modelled either as `Except String α`
  or, where the zero value returned alongside an error matters, as an explicit
  pair `α × Option String`.
* The LLM generation calls and the JSON decoder are external collaborators;
  they enter the model as explicit arguments (`Except String String` results
  and decode functions), so every downstream branch of the embedded code is
  quantified over all possible collaborator behaviours.
-/

/-- The prompt structure (`llm.Prompt`): input text plus directives and
examples, as produced and consumed by the optimizer. -/
structure Prompt where
  input : String
  directives : List String
  examples : List String
deriving DecidableEq

/-- One entry of the `metrics` sequence of an assessment:
`{"name": string, "value": number, "reasoning": string}`. -/
structure AssessmentMetric where
  name : String
  value : ℚ
  reasoning : String
deriving DecidableEq

/-- One entry of the `strengths` sequence: `{"point": string, "example": string}`. -/
structure Strength where
  point : String
  exampleText : String
deriving DecidableEq

/-- One entry of the `weaknesses` sequence: `{"point": string, "example": string}`. -/
structure Weakness where
  point : String
  exampleText : String
deriving DecidableEq

/-- One entry of the `suggestions` sequence:
`{"description": string, "expectedImpact": number, "reasoning": string}`. -/
structure Suggestion where
  description : String
  expectedImpact : ℚ
  reasoning : String
deriving DecidableEq

/-- The structured assessment decoded from the LLM's JSON response
(`PromptAssessment` in the optimizer package). -/
structure PromptAssessment where
  metrics : List AssessmentMetric
  strengths : List Strength
  weaknesses : List Weakness
  suggestions : List Suggestion
  overallScore : ℚ
  overallGrade : String
  efficiencyScore : ℚ
  alignmentWithGoal : ℚ
deriving DecidableEq

/-- The Go zero value of `PromptAssessment`: empty lists, zero scores, empty grade. -/
def emptyAssessment : PromptAssessment :=
  { metrics := [], strengths := [], weaknesses := [], suggestions := []
    overallScore := 0, overallGrade := "", efficiencyScore := 0, alignmentWithGoal := 0 }

/-- `OptimizationEntry`: one prompt paired with its assessment. The prompt field
is a Go pointer (`*llm.Prompt`), hence `Option Prompt`, `none` in the zero value. -/
structure OptimizationEntry where
  prompt : Option Prompt
  assessment : PromptAssessment
deriving DecidableEq

/-- The Go zero value `OptimizationEntry{}` returned alongside every error of
`assessPrompt`. -/
def emptyEntry : OptimizationEntry :=
  { prompt := none, assessment := emptyAssessment }

/-- The optimizer's run-wide configuration fields that the embedded functions
read (`PromptOptimizer`). -/
structure PromptOptimizer where
  taskDesc : String
  optimizationGoal : String
  ratingSystem : String
  threshold : ℚ
  iterations : Nat

/-- The letter-grade table of `isOptimizationGoalMet`'s letter branch, embedded
as an association list mirroring the Go map literal `gradeValues`. -/
def gradeValues : List (String × ℚ) :=
  [("A+", 43/10), ("A", 4), ("A-", 37/10),
   ("B+", 33/10), ("B", 3), ("B-", 27/10),
   ("C+", 23/10), ("C", 2), ("C-", 17/10),
   ("D+", 13/10), ("D", 1), ("D-", 7/10),
   ("F", 0)]

/-- The thirteen grade strings that are keys of `gradeValues`. -/
def validGradeKeys : List String :=
  ["A+", "A", "A-", "B+", "B", "B-", "C+", "C", "C-", "D+", "D", "D-", "F"]

/-- Embedding of `(po *PromptOptimizer) isOptimizationGoalMet` from
`src/presets/structured_data_extractor.go` (optimizer package part), returning
the Go pair `(bool, error)` as `Bool × Option String`. -/
def isOptimizationGoalMet (po : PromptOptimizer) (assessment : PromptAssessment) :
    Bool × Option String :=
  if po.ratingSystem = "" then (false, none)
  else if po.ratingSystem = "numerical" then
    (decide (20 * po.threshold ≤ assessment.overallScore), none)
  else if po.ratingSystem = "letter" then
    match gradeValues.lookup assessment.overallGrade with
    | none => (false, some ("invalid grade: " ++ assessment.overallGrade))
    | some gradeValue => (decide ((37 : ℚ)/10 ≤ gradeValue), none)
  else (false, some ("unknown rating system: " ++ po.ratingSystem))

/-- C1: in numerical rating mode, `isOptimizationGoalMet` returns true exactly
when `overallScore ≥ 20 * threshold`, the boundary `overallScore = 20 * threshold`
is inclusive, and no error is returned. -/
theorem c1_numerical_goal_met_iff (po : PromptOptimizer) (a : PromptAssessment)
    (h : po.ratingSystem = "numerical") :
    ((isOptimizationGoalMet po a).1 = true ↔ 20 * po.threshold ≤ a.overallScore) ∧
    (a.overallScore = 20 * po.threshold → (isOptimizationGoalMet po a).1 = true) ∧
    (isOptimizationGoalMet po a).2 = none := by
  have hne : po.ratingSystem ≠ "" := by rw [h]; decide
  refine ⟨?_, ?_, ?_⟩
  · simp [isOptimizationGoalMet, hne, h]
  · intro hb
    simp [isOptimizationGoalMet, hne, h, hb]
  · simp [isOptimizationGoalMet, hne, h]

/-- A concrete optimizer configuration in numerical mode with threshold 3/4,
used by witnesses. -/
def sampleNumericalOptimizer : PromptOptimizer :=
  { taskDesc := "t", optimizationGoal := "g", ratingSystem := "numerical"
    threshold := 3/4, iterations := 5 }

/-- A concrete well-formed assessment with overall score 15 (exactly 20 × 3/4),
used by witnesses. -/
def sampleAssessment15 : PromptAssessment :=
  { metrics := [⟨"m", 10, "r"⟩], strengths := [⟨"s", "e"⟩]
    weaknesses := [⟨"w", "e"⟩], suggestions := [⟨"d", 10, "r"⟩]
    overallScore := 15, overallGrade := "A", efficiencyScore := 10
    alignmentWithGoal := 10 }

/-- Closed witness for C1 at a concrete optimizer and assessment sitting exactly
on the boundary (threshold 3/4, score 15). -/
theorem c1_numerical_goal_met_iff_witness :
    (isOptimizationGoalMet sampleNumericalOptimizer sampleAssessment15).1 = true ∧
    (isOptimizationGoalMet sampleNumericalOptimizer sampleAssessment15).2 = none := by
  refine ⟨?_, ?_⟩
  · exact (c1_numerical_goal_met_iff sampleNumericalOptimizer sampleAssessment15 rfl).2.1
      (by norm_num [sampleAssessment15, sampleNumericalOptimizer])
  · exact (c1_numerical_goal_met_iff sampleNumericalOptimizer sampleAssessment15 rfl).2.2

lemma goalMet_letter_eq (po : PromptOptimizer) (a : PromptAssessment)
    (h : po.ratingSystem = "letter") :
    isOptimizationGoalMet po a =
      match gradeValues.lookup a.overallGrade with
      | none => (false, some ("invalid grade: " ++ a.overallGrade))
      | some gradeValue => (decide ((37 : ℚ)/10 ≤ gradeValue), none) := by
  simp [isOptimizationGoalMet, h]

lemma lookup_gradeValues_eq_none (g : String) (hg : g ∉ validGradeKeys) :
    gradeValues.lookup g = none := by
  simp only [validGradeKeys, List.mem_cons, List.not_mem_nil, or_false, not_or] at hg
  obtain ⟨h1, h2, h3, h4, h5, h6, h7, h8, h9, h10, h11, h12, h13⟩ := hg
  simp [gradeValues, List.lookup,
    beq_eq_false_iff_ne.mpr h1, beq_eq_false_iff_ne.mpr h2, beq_eq_false_iff_ne.mpr h3,
    beq_eq_false_iff_ne.mpr h4, beq_eq_false_iff_ne.mpr h5, beq_eq_false_iff_ne.mpr h6,
    beq_eq_false_iff_ne.mpr h7, beq_eq_false_iff_ne.mpr h8, beq_eq_false_iff_ne.mpr h9,
    beq_eq_false_iff_ne.mpr h10, beq_eq_false_iff_ne.mpr h11, beq_eq_false_iff_ne.mpr h12,
    beq_eq_false_iff_ne.mpr h13]

/-- C3: in letter rating mode, `isOptimizationGoalMet` returns true (no error)
for each of A+, A, A-, returns false (no error) for each of B+, B, B-, C+, C,
C-, D+, D, D-, F, and returns an error for any grade outside the
thirteen-grade table. -/
theorem c3_letter_goal_table (po : PromptOptimizer) (a : PromptAssessment)
    (h : po.ratingSystem = "letter") :
    (a.overallGrade ∈ (["A+", "A", "A-"] : List String) →
      isOptimizationGoalMet po a = (true, none)) ∧
    (a.overallGrade ∈ (["B+", "B", "B-", "C+", "C", "C-", "D+", "D", "D-", "F"] :
        List String) →
      isOptimizationGoalMet po a = (false, none)) ∧
    (a.overallGrade ∉ validGradeKeys →
      isOptimizationGoalMet po a = (false, some ("invalid grade: " ++ a.overallGrade))) := by
  rw [goalMet_letter_eq po a h]
  refine ⟨?_, ?_, ?_⟩
  · intro hm
    simp only [List.mem_cons, List.not_mem_nil, or_false] at hm
    rcases hm with hg | hg | hg <;> rw [hg] <;>
      norm_num [show gradeValues.lookup "A+" = some (43/10) from rfl,
        show gradeValues.lookup "A" = some 4 from rfl,
        show gradeValues.lookup "A-" = some (37/10) from rfl]
  · intro hm
    simp only [List.mem_cons, List.not_mem_nil, or_false] at hm
    rcases hm with hg | hg | hg | hg | hg | hg | hg | hg | hg | hg <;> rw [hg] <;>
      norm_num [show gradeValues.lookup "B+" = some (33/10) from rfl,
        show gradeValues.lookup "B" = some 3 from rfl,
        show gradeValues.lookup "B-" = some (27/10) from rfl,
        show gradeValues.lookup "C+" = some (23/10) from rfl,
        show gradeValues.lookup "C" = some 2 from rfl,
        show gradeValues.lookup "C-" = some (17/10) from rfl,
        show gradeValues.lookup "D+" = some (13/10) from rfl,
        show gradeValues.lookup "D" = some 1 from rfl,
        show gradeValues.lookup "D-" = some (7/10) from rfl,
        show gradeValues.lookup "F" = some 0 from rfl]
  · intro hm
    rw [lookup_gradeValues_eq_none a.overallGrade hm]

/-- Closed witness for C3 at a concrete letter-mode optimizer: grade A- meets
the goal, grade B+ does not, and grade "E" is rejected with an error. -/
theorem c3_letter_goal_table_witness :
    isOptimizationGoalMet
      { taskDesc := "t", optimizationGoal := "g", ratingSystem := "letter",
        threshold := 0, iterations := 5 }
      { sampleAssessment15 with overallGrade := "A-" } = (true, none) ∧
    isOptimizationGoalMet
      { taskDesc := "t", optimizationGoal := "g", ratingSystem := "letter",
        threshold := 0, iterations := 5 }
      { sampleAssessment15 with overallGrade := "B+" } = (false, none) ∧
    isOptimizationGoalMet
      { taskDesc := "t", optimizationGoal := "g", ratingSystem := "letter",
        threshold := 0, iterations := 5 }
      { sampleAssessment15 with overallGrade := "E" } =
      (false, some ("invalid grade: " ++ "E")) := by
  refine ⟨?_, ?_, ?_⟩
  · exact (c3_letter_goal_table _ _ rfl).1 (by decide)
  · exact (c3_letter_goal_table _ _ rfl).2.1 (by decide)
  · exact (c3_letter_goal_table _ _ rfl).2.2 (by decide)

/-- Outcome of one optimization run: how many Scoring passes ran, how many
Improving rounds ran, and the result (final prompt or error). -/
structure RunTrace where
  scorings : Nat
  improvings : Nat
  result : Except String Prompt

/-- Modelled from the spec: the Optimization Controller loop (`OptimizePrompt`),
whose source is not under src/ (only its callers are). Per the spec's state
machine, every round Scores the current prompt, records it, Decides using
`isOptimizationGoalMet` (goal met → stop with success; decision error → run
fails), and otherwise Improves unless the iteration cap is exhausted; a run with
zero allowed iterations still performs exactly one Scoring pass and then stops
via the cap. `remaining` counts the Improving rounds the cap still allows;
`assess` gives the assessment produced by the k-th Scoring pass and `improve`
the Improvement Engine's replacement prompt. -/
def optimizeAux (po : PromptOptimizer) (assess : Nat → PromptAssessment)
    (improve : Prompt → PromptAssessment → Prompt) :
    Nat → Prompt → Nat → Nat → RunTrace
  | remaining, p, sc, im =>
    let a := assess sc
    match isOptimizationGoalMet po a with
    | (_, some e) => ⟨sc + 1, im, .error e⟩
    | (true, none) => ⟨sc + 1, im, .ok p⟩
    | (false, none) =>
      match remaining with
      | 0 => ⟨sc + 1, im, .ok p⟩
      | r + 1 => optimizeAux po assess improve r (improve p a) (sc + 1) (im + 1)

/-- Modelled from the spec: a whole optimization run with iteration cap
`maxIter` starting from prompt `p0` (see `optimizeAux`). -/
def optimizeRun (po : PromptOptimizer) (assess : Nat → PromptAssessment)
    (improve : Prompt → PromptAssessment → Prompt) (maxIter : Nat) (p0 : Prompt) :
    RunTrace :=
  optimizeAux po assess improve maxIter p0 0 0

lemma optimizeAux_never_met (po : PromptOptimizer)
    (hpo : ∀ a, isOptimizationGoalMet po a = (false, none))
    (assess : Nat → PromptAssessment) (improve : Prompt → PromptAssessment → Prompt) :
    ∀ remaining p sc im, ∃ q,
      optimizeAux po assess improve remaining p sc im =
        ⟨sc + remaining + 1, im + remaining, .ok q⟩ := by
  intro remaining
  induction remaining with
  | zero =>
    intro p sc im
    refine ⟨p, ?_⟩
    rw [optimizeAux]
    simp [hpo (assess sc)]
  | succ r ih =>
    intro p sc im
    obtain ⟨q, hq⟩ := ih (improve p (assess sc)) (sc + 1) (im + 1)
    refine ⟨q, ?_⟩
    rw [optimizeAux]
    simp only [hpo (assess sc)]
    have h1 : sc + 1 + r + 1 = sc + (r + 1) + 1 := by omega
    have h2 : im + 1 + r = im + (r + 1) := by omega
    rw [hq, h1, h2]

/-- C7: with an empty rating system, `isOptimizationGoalMet` returns false with
no error for every assessment, so the goal is never met and every run stops
only through the iteration cap: it performs all `maxIter + 1` Scoring passes
and all `maxIter` Improving rounds and still ends successfully. -/
theorem c7_empty_rating_system_never_met (po : PromptOptimizer)
    (h : po.ratingSystem = "") :
    (∀ a, isOptimizationGoalMet po a = (false, none)) ∧
    (∀ assess improve maxIter p0, ∃ q,
      optimizeRun po assess improve maxIter p0 =
        ⟨maxIter + 1, maxIter, .ok q⟩) := by
  have hpo : ∀ a, isOptimizationGoalMet po a = (false, none) := by
    intro a
    simp [isOptimizationGoalMet, h]
  refine ⟨hpo, ?_⟩
  intro assess improve maxIter p0
  obtain ⟨q, hq⟩ := optimizeAux_never_met po hpo assess improve maxIter p0 0 0
  refine ⟨q, ?_⟩
  rw [optimizeRun, hq]
  norm_num

/-- Closed witness for C7: a concrete run with empty rating system and cap 2
performs 3 Scoring passes, 2 Improving rounds, and ends successfully. -/
theorem c7_empty_rating_system_never_met_witness :
    isOptimizationGoalMet
      { taskDesc := "t", optimizationGoal := "g", ratingSystem := "",
        threshold := 0, iterations := 2 } sampleAssessment15 = (false, none) ∧
    ∃ q, optimizeRun
      { taskDesc := "t", optimizationGoal := "g", ratingSystem := "",
        threshold := 0, iterations := 2 }
      (fun _ => sampleAssessment15) (fun p _ => p) 2 ⟨"p", [], []⟩ =
      ⟨3, 2, .ok q⟩ := by
  refine ⟨?_, ?_⟩
  · exact (c7_empty_rating_system_never_met _ rfl).1 sampleAssessment15
  · exact (c7_empty_rating_system_never_met _ rfl).2 (fun _ => sampleAssessment15)
      (fun p _ => p) 2 ⟨"p", [], []⟩

/-- C9: a run configured with max iterations = 0 (whose single Deciding step
returns no error) performs exactly one Scoring pass, executes no Improving
round, and terminates via the iteration-cap rule returning its initial prompt
unchanged. -/
theorem c9_zero_iterations_single_scoring (po : PromptOptimizer)
    (assess : Nat → PromptAssessment) (improve : Prompt → PromptAssessment → Prompt)
    (p0 : Prompt) (h : (isOptimizationGoalMet po (assess 0)).2 = none) :
    optimizeRun po assess improve 0 p0 = ⟨1, 0, .ok p0⟩ := by
  rw [optimizeRun, optimizeAux]
  rcases hx : isOptimizationGoalMet po (assess 0) with ⟨b, o⟩
  have ho : o = none := by rw [hx] at h; exact h
  subst ho
  cases b <;> simp [hx]

/-- Closed witness for C9: a concrete zero-iteration run scores once and
returns its initial prompt. -/
theorem c9_zero_iterations_single_scoring_witness :
    optimizeRun sampleNumericalOptimizer (fun _ => sampleAssessment15)
      (fun p _ => p) 0 ⟨"p", [], []⟩ = ⟨1, 0, .ok ⟨"p", [], []⟩⟩ :=
  c9_zero_iterations_single_scoring sampleNumericalOptimizer
    (fun _ => sampleAssessment15) (fun p _ => p) ⟨"p", [], []⟩
    ((c1_numerical_goal_met_iff sampleNumericalOptimizer sampleAssessment15 rfl).2.2)

/-- The `expectedImpact` object of the improvement response:
`{"incremental": number, "bold": number}`. -/
structure ExpectedImpact where
  incremental : ℚ
  bold : ℚ
deriving DecidableEq

/-- The anonymous struct decoded from the improvement response in
`generateImprovedPrompt` (`src/unnamed/part_001`). -/
structure ImprovedPrompts where
  incrementalImprovement : Prompt
  boldRedesign : Prompt
  expectedImpact : ExpectedImpact
deriving DecidableEq

/-- Embedding of `(po *PromptOptimizer) generateImprovedPrompt` from
`src/unnamed/part_001`, from the point where the LLM's generation result is in
hand. The generation call, the code-fence stripper `cleanJSONResponse` (whose
source is not under src/) and the JSON decoder are external collaborators and
appear as arguments; the Go return pair `(*llm.Prompt, error)` is the pair
`Option Prompt × Option String` (nil pointer = `none`). -/
def generateImprovedPrompt (genResult : Except String String)
    (cleanJSONResponse : String → String)
    (unmarshal : String → Except String ImprovedPrompts) :
    Option Prompt × Option String :=
  match genResult with
  | .error e => (none, some ("failed to generate improved prompt: " ++ e))
  | .ok response =>
    let cleanedResponse := cleanJSONResponse response
    match unmarshal cleanedResponse with
    | .error e => (none, some ("failed to parse improved prompts: " ++ e))
    | .ok improvedPrompts =>
      if improvedPrompts.expectedImpact.incremental < improvedPrompts.expectedImpact.bold
      then (some improvedPrompts.boldRedesign, none)
      else (some improvedPrompts.incrementalImprovement, none)

/-- C2: when the improvement response decodes successfully,
`generateImprovedPrompt` returns the bold redesign exactly when the bold
predicted-impact score is strictly greater than the incremental one; on equal
scores (and when incremental is greater) it returns the incremental variant. -/
theorem c2_improvement_selection_tie_break (genText : String)
    (cleanJSONResponse : String → String)
    (unmarshal : String → Except String ImprovedPrompts) (i : ImprovedPrompts)
    (hd : unmarshal (cleanJSONResponse genText) = .ok i) :
    (i.expectedImpact.incremental < i.expectedImpact.bold →
      generateImprovedPrompt (.ok genText) cleanJSONResponse unmarshal =
        (some i.boldRedesign, none)) ∧
    (i.expectedImpact.incremental = i.expectedImpact.bold →
      generateImprovedPrompt (.ok genText) cleanJSONResponse unmarshal =
        (some i.incrementalImprovement, none)) ∧
    (i.expectedImpact.bold < i.expectedImpact.incremental →
      generateImprovedPrompt (.ok genText) cleanJSONResponse unmarshal =
        (some i.incrementalImprovement, none)) := by
  refine ⟨?_, ?_, ?_⟩
  · intro hlt
    simp [generateImprovedPrompt, hd, hlt]
  · intro heq
    simp [generateImprovedPrompt, hd, heq]
  · intro hgt
    simp [generateImprovedPrompt, hd, not_lt_of_gt hgt]

/-- A concrete decoded improvement response with equal predicted-impact scores,
used by witnesses. -/
def sampleTiedImprovement : ImprovedPrompts :=
  { incrementalImprovement := ⟨"inc", [], []⟩
    boldRedesign := ⟨"bold", [], []⟩
    expectedImpact := ⟨16, 16⟩ }

/-- Closed witness for C2: on a tie (both impacts 16) the incremental variant is
returned. -/
theorem c2_improvement_selection_tie_break_witness :
    generateImprovedPrompt (.ok "resp") (fun s => s)
      (fun _ => .ok sampleTiedImprovement) =
      (some sampleTiedImprovement.incrementalImprovement, none) :=
  (c2_improvement_selection_tie_break "resp" (fun s => s)
      (fun _ => .ok sampleTiedImprovement) sampleTiedImprovement rfl).2.1 rfl

/-- C8: a generation failure or a decode failure in `generateImprovedPrompt` is
returned to the caller as an error wrapping the underlying cause together with
a nil prompt; in particular the function never returns the previous prompt on
failure. -/
theorem c8_improvement_failures_propagate (cleanJSONResponse : String → String)
    (unmarshal : String → Except String ImprovedPrompts) :
    (∀ e, generateImprovedPrompt (.error e) cleanJSONResponse unmarshal =
      (none, some ("failed to generate improved prompt: " ++ e))) ∧
    (∀ genText e, unmarshal (cleanJSONResponse genText) = .error e →
      generateImprovedPrompt (.ok genText) cleanJSONResponse unmarshal =
        (none, some ("failed to parse improved prompts: " ++ e))) := by
  refine ⟨?_, ?_⟩
  · intro e
    rfl
  · intro genText e hd
    simp [generateImprovedPrompt, hd]

/-- Closed witness for C8: a concrete failing generation and a concrete failing
decode each yield a nil prompt and a wrapped error. -/
theorem c8_improvement_failures_propagate_witness :
    generateImprovedPrompt (.error "boom") (fun s => s)
      (fun _ => .error "bad json") =
      (none, some ("failed to generate improved prompt: " ++ "boom")) ∧
    generateImprovedPrompt (.ok "resp") (fun s => s)
      (fun _ => .error "bad json") =
      (none, some ("failed to parse improved prompts: " ++ "bad json")) :=
  ⟨(c8_improvement_failures_propagate (fun s => s) (fun _ => .error "bad json")).1 "boom",
   (c8_improvement_failures_propagate (fun s => s) (fun _ => .error "bad json")).2
     "resp" "bad json" rfl⟩

/-- Modelled from the spec: `llm.Validate` applied to a `PromptAssessment`
(the validation-tagged struct declaration and the validator are not under
src/). Per the spec, each of the four sequences must be non-empty and the
overall score must lie in the 0–20 range; an assessment violating either rule
is rejected. -/
def validateAssessment (a : PromptAssessment) : Except String Unit :=
  if a.metrics.isEmpty then .error "metrics must contain at least one item"
  else if a.strengths.isEmpty then .error "strengths must contain at least one item"
  else if a.weaknesses.isEmpty then .error "weaknesses must contain at least one item"
  else if a.suggestions.isEmpty then .error "suggestions must contain at least one item"
  else if ¬ (0 ≤ a.overallScore ∧ a.overallScore ≤ 20) then
    .error "overallScore must be between 0 and 20"
  else .ok ()

/-- Embedding of `(po *PromptOptimizer) assessPrompt` from
`src/presets/structured_data_extractor.go` (optimizer package part), from the
point where the LLM's generation result is in hand. Generation, the code-fence
stripper `cleanJSONResponse` and the JSON decoder are external collaborators
passed as arguments, as is `normalizeGrade` (whose source is not under src/);
the Go return pair `(OptimizationEntry, error)` is the pair
`OptimizationEntry × Option String`, with `emptyEntry` the zero value. -/
def assessPrompt (genResult : Except String String)
    (cleanJSONResponse : String → String)
    (unmarshal : String → Except String PromptAssessment)
    (normalizeGrade : String → ℚ → Except String String)
    (prompt : Prompt) : OptimizationEntry × Option String :=
  match genResult with
  | .error e => (emptyEntry, some ("failed to assess prompt: " ++ e))
  | .ok response =>
    let cleanedResponse := cleanJSONResponse response
    match unmarshal cleanedResponse with
    | .error e => (emptyEntry, some ("failed to parse assessment response: " ++ e))
    | .ok assessment =>
      match validateAssessment assessment with
      | .error e => (emptyEntry, some ("invalid assessment structure: " ++ e))
      | .ok _ =>
        match normalizeGrade assessment.overallGrade assessment.overallScore with
        | .error e => (emptyEntry, some ("invalid overall grade: " ++ e))
        | .ok g =>
          ({ prompt := some prompt, assessment := { assessment with overallGrade := g } },
           none)

lemma validateAssessment_error_of_empty (a : PromptAssessment)
    (he : a.metrics = [] ∨ a.strengths = [] ∨ a.weaknesses = [] ∨ a.suggestions = []) :
    ∃ e, validateAssessment a = .error e := by
  rcases he with h | h | h | h <;>
    simp [validateAssessment, h, List.isEmpty_iff] <;>
    split_ifs <;> simp

/-- C4: any decoded assessment with an empty metrics, strengths, weaknesses or
suggestions list makes `assessPrompt` fail with a validation error and the
empty entry, regardless of the remaining fields; no such assessment is ever
returned to the caller. -/
theorem c4_empty_lists_rejected (genText : String)
    (cleanJSONResponse : String → String)
    (unmarshal : String → Except String PromptAssessment)
    (normalizeGrade : String → ℚ → Except String String) (prompt : Prompt)
    (a : PromptAssessment)
    (hd : unmarshal (cleanJSONResponse genText) = .ok a)
    (he : a.metrics = [] ∨ a.strengths = [] ∨ a.weaknesses = [] ∨ a.suggestions = []) :
    ∃ msg, assessPrompt (.ok genText) cleanJSONResponse unmarshal normalizeGrade prompt =
      (emptyEntry, some ("invalid assessment structure: " ++ msg)) := by
  obtain ⟨e, hv⟩ := validateAssessment_error_of_empty a he
  exact ⟨e, by simp [assessPrompt, hd, hv]⟩

/-- Closed witness for C4: a decoded assessment with an empty strengths list
(and every other field well-formed) is rejected with the empty entry. -/
theorem c4_empty_lists_rejected_witness :
    ∃ msg, assessPrompt (.ok "resp") (fun s => s)
      (fun _ => .ok { sampleAssessment15 with strengths := [] })
      (fun g _ => .ok g) ⟨"p", [], []⟩ =
      (emptyEntry, some ("invalid assessment structure: " ++ msg)) :=
  c4_empty_lists_rejected "resp" (fun s => s)
    (fun _ => .ok { sampleAssessment15 with strengths := [] })
    (fun g _ => .ok g) ⟨"p", [], []⟩
    { sampleAssessment15 with strengths := [] } rfl (Or.inr (Or.inl rfl))

/-- C5: each of the four failure kinds of `assessPrompt` — generation failure,
decode failure, validation failure, grade-normalization failure — is reported
to the caller as an error wrapping the underlying cause, and in every such
case the returned entry is the empty value. -/
theorem c5_assess_failures_propagate (cleanJSONResponse : String → String)
    (unmarshal : String → Except String PromptAssessment)
    (normalizeGrade : String → ℚ → Except String String) (prompt : Prompt) :
    (∀ e, assessPrompt (.error e) cleanJSONResponse unmarshal normalizeGrade prompt =
      (emptyEntry, some ("failed to assess prompt: " ++ e))) ∧
    (∀ genText e, unmarshal (cleanJSONResponse genText) = .error e →
      assessPrompt (.ok genText) cleanJSONResponse unmarshal normalizeGrade prompt =
        (emptyEntry, some ("failed to parse assessment response: " ++ e))) ∧
    (∀ genText a e, unmarshal (cleanJSONResponse genText) = .ok a →
      validateAssessment a = .error e →
      assessPrompt (.ok genText) cleanJSONResponse unmarshal normalizeGrade prompt =
        (emptyEntry, some ("invalid assessment structure: " ++ e))) ∧
    (∀ genText a e, unmarshal (cleanJSONResponse genText) = .ok a →
      validateAssessment a = .ok () →
      normalizeGrade a.overallGrade a.overallScore = .error e →
      assessPrompt (.ok genText) cleanJSONResponse unmarshal normalizeGrade prompt =
        (emptyEntry, some ("invalid overall grade: " ++ e))) := by
  refine ⟨?_, ?_, ?_, ?_⟩
  · intro e
    rfl
  · intro genText e hd
    simp [assessPrompt, hd]
  · intro genText a e hd hv
    simp [assessPrompt, hd, hv]
  · intro genText a e hd hv hn
    simp [assessPrompt, hd, hv, hn]

/-- Closed witness for C5: each failure kind exercised at concrete inputs
returns the empty entry and the corresponding wrapped error. -/
theorem c5_assess_failures_propagate_witness :
    assessPrompt (.error "boom") (fun s => s) (fun _ => .ok sampleAssessment15)
      (fun g _ => .ok g) ⟨"p", [], []⟩ =
      (emptyEntry, some ("failed to assess prompt: " ++ "boom")) ∧
    assessPrompt (.ok "resp") (fun s => s) (fun _ => .error "bad json")
      (fun g _ => .ok g) ⟨"p", [], []⟩ =
      (emptyEntry, some ("failed to parse assessment response: " ++ "bad json")) ∧
    assessPrompt (.ok "resp") (fun s => s)
      (fun _ => .ok { sampleAssessment15 with metrics := [] })
      (fun g _ => .ok g) ⟨"p", [], []⟩ =
      (emptyEntry, some ("invalid assessment structure: " ++
        "metrics must contain at least one item")) ∧
    assessPrompt (.ok "resp") (fun s => s) (fun _ => .ok sampleAssessment15)
      (fun _ _ => .error "unparseable grade") ⟨"p", [], []⟩ =
      (emptyEntry, some ("invalid overall grade: " ++ "unparseable grade")) := by
  refine ⟨?_, ?_, ?_, ?_⟩
  · exact (c5_assess_failures_propagate (fun s => s) (fun _ => .ok sampleAssessment15)
      (fun g _ => .ok g) ⟨"p", [], []⟩).1 "boom"
  · exact (c5_assess_failures_propagate (fun s => s) (fun _ => .error "bad json")
      (fun g _ => .ok g) ⟨"p", [], []⟩).2.1 "resp" "bad json" rfl
  · exact (c5_assess_failures_propagate (fun s => s)
      (fun _ => .ok { sampleAssessment15 with metrics := [] })
      (fun g _ => .ok g) ⟨"p", [], []⟩).2.2.1 "resp"
      { sampleAssessment15 with metrics := [] }
      "metrics must contain at least one item" rfl rfl
  · exact (c5_assess_failures_propagate (fun s => s) (fun _ => .ok sampleAssessment15)
      (fun _ _ => .error "unparseable grade") ⟨"p", [], []⟩).2.2.2 "resp"
      sampleAssessment15 "unparseable grade" rfl (by norm_num [validateAssessment,
        sampleAssessment15]) rfl

/-- Model of Go's `unicode.IsSpace` as used by `strings.TrimSpace`: ASCII
whitespace plus NEL and NBSP. (The remaining Unicode space code points are
modelled as non-space; none of them occurs in the strings these claims
examine.) -/
def goIsSpace (c : Char) : Bool :=
  c == ' ' || c == '\t' || c == '\n' || c == Char.ofNat 11 || c == Char.ofNat 12 ||
    c == '\r' || c == Char.ofNat 0x85 || c == Char.ofNat 0xA0

/-- Model of Go's `unicode.ToLower` on one rune: ASCII letters are lowered;
other code points are left unchanged. (Non-ASCII letters with case are
modelled as caseless; the CJK characters these claims examine are caseless in
Go as well.) -/
def goToLowerChar (c : Char) : Char :=
  if 65 ≤ c.toNat ∧ c.toNat ≤ 90 then Char.ofNat (c.toNat + 32) else c

/-- Model of Go's `strings.ToLower` (rune-wise lowering). -/
def goToLower (s : String) : String :=
  ⟨s.data.map goToLowerChar⟩

/-- Model of Go's `strings.TrimSpace`: drop leading and trailing space runes. -/
def goTrimSpace (s : String) : String :=
  ⟨((s.data.dropWhile goIsSpace).reverse.dropWhile goIsSpace).reverse⟩

/-- Embedding of `ExtractStructuredData` from
`src/presets/structured_data_extractor.go` (presets package). The two LLM
generation calls, the schema generator, the JSON decoder for the target type
`T` and the tag validator are external collaborators passed as arguments. The
nil-context and nil-LLM guards concern Go pointers and are outside the model;
the returned flag records whether the extraction request was issued. -/
def extractStructuredData {T : Type} (text : String)
    (schemaResult : Except String String)
    (validationGen : Except String String)
    (extractionGen : Except String String)
    (unmarshal : String → Except String T)
    (validate : T → Except String Unit) :
    Except String T × Bool :=
  if goTrimSpace text = "" then (.error "text cannot be empty", false)
  else
    match schemaResult with
    | .error e => (.error ("failed to generate JSON schema: " ++ e), false)
    | .ok _schema =>
      match validationGen with
      | .error e => (.error ("failed to validate text content: " ++ e), false)
      | .ok validationResponse =>
        if goTrimSpace (goToLower validationResponse) ≠ "yes" then
          (.error "text does not contain enough extractable information", false)
        else
          match extractionGen with
          | .error e => (.error ("failed to generate structured data: " ++ e), true)
          | .ok response =>
            match unmarshal response with
            | .error e => (.error ("failed to parse response: " ++ e), true)
            | .ok result =>
              match validate result with
              | .error e => (.error ("validation failed: " ++ e), true)
              | .ok _ => (.ok result, true)

/-- C6: with valid inputs, whenever the trimmed, lowercased pre-validation
response is not exactly "yes", `ExtractStructuredData` returns the
not-enough-information error without issuing the extraction request — and the
answers 是 and 否 that the validation prompt's directives demand are both such
responses, so no response obeying those directives reaches the extraction
step. -/
theorem c6_validation_gate_blocks_extraction {T : Type} (text s : String)
    (extractionGen : Except String String) (unmarshal : String → Except String T)
    (validate : T → Except String Unit) (ht : goTrimSpace text ≠ "") :
    (∀ validationResponse, goTrimSpace (goToLower validationResponse) ≠ "yes" →
      extractStructuredData text (.ok s) (.ok validationResponse)
          extractionGen unmarshal validate =
        (.error "text does not contain enough extractable information", false)) ∧
    goTrimSpace (goToLower "是") ≠ "yes" ∧
    goTrimSpace (goToLower "否") ≠ "yes" := by
  refine ⟨?_, by decide, by decide⟩
  intro validationResponse hv
  simp [extractStructuredData, ht, hv]

/-- Closed witness for C6: with a non-empty text, the directive-conforming
answer 否 aborts the call before any extraction request. -/
theorem c6_validation_gate_blocks_extraction_witness :
    extractStructuredData "John is 32" (.ok "schema") (.ok "否") (.ok "resp")
      (fun _ => .ok ()) (fun _ => .ok ()) =
      (.error "text does not contain enough extractable information", false) :=
  (c6_validation_gate_blocks_extraction "John is 32" "schema" (.ok "resp")
    (fun _ => .ok ()) (fun _ => .ok ()) (by decide)).1 "否" (by decide)

/-- Modelled from the spec: the numeric-form branch of `normalizeGrade` (whose
source is not under src/): a numeric overall grade is mapped onto the fixed
six-letter scale {F, D, C, B, A, A+} by monotone thresholds across 0–20,
following the spec's example boundaries (≥19 → A+, ≥17 → A, …, <2 → F). -/
def numericGradeToLetter (score : ℚ) : String :=
  if 19 ≤ score then "A+"
  else if 17 ≤ score then "A"
  else if 12 ≤ score then "B"
  else if 7 ≤ score then "C"
  else if 2 ≤ score then "D"
  else "F"

/-- Rank of a token on the six-letter scale (F lowest, A+ highest), used to
state monotonicity of the numeric-to-letter mapping. -/
def letterRank (g : String) : Nat :=
  if g = "A+" then 5
  else if g = "A" then 4
  else if g = "B" then 3
  else if g = "C" then 2
  else if g = "D" then 1
  else 0

/-- C10: over the whole range [0,20] the numeric-to-letter normalization is
total with values in the fixed six-letter set {F, D, C, B, A, A+}, and it is
monotone: a higher score never maps to a strictly lower letter. -/
theorem c10_numeric_grade_total_monotone :
    (∀ score : ℚ, 0 ≤ score → score ≤ 20 →
      numericGradeToLetter score ∈ (["F", "D", "C", "B", "A", "A+"] : List String)) ∧
    (∀ s t : ℚ, 0 ≤ s → s ≤ t → t ≤ 20 →
      letterRank (numericGradeToLetter s) ≤ letterRank (numericGradeToLetter t)) := by
  refine ⟨?_, ?_⟩
  · intro score h0 h20
    unfold numericGradeToLetter
    split_ifs <;> decide
  · intro s t h0 hst h20
    unfold numericGradeToLetter
    split_ifs <;> simp [letterRank] <;> linarith

/-- Closed witness for C10: score 10 maps into the six-letter set, and the
ranks at scores 3 and 18 are ordered. -/
theorem c10_numeric_grade_total_monotone_witness :
    numericGradeToLetter 10 ∈ (["F", "D", "C", "B", "A", "A+"] : List String) ∧
    letterRank (numericGradeToLetter 3) ≤ letterRank (numericGradeToLetter 18) :=
  ⟨c10_numeric_grade_total_monotone.1 10 (by norm_num) (by norm_num),
   c10_numeric_grade_total_monotone.2 3 18 (by norm_num) (by norm_num) (by norm_num)⟩
